import Mathlib

/-!
# ChasteElegansProject: statechart snapshot archiving and the mass-corrected repulsion force

A shallow embedding of

* `src/cycle/StatechartCellCycleModelSerializable.hpp`
  (`serialize`, `save_construct_data`, `load_construct_data`),
* `src/cycle/ElegansAdultDistanceBasedCellCycleModel.hpp` (`serialize`),
* `src/RepulsionForceMassCorrected.cpp` (`AddForceContribution`).

Conventions of the embedding.

* A C++ `int` is a Lean `Int`; a conversion into `int` goes through `toInt32`
  (reduction modulo `2^32` into the signed range).
* A `std::vector<double>` is a `List D`, where `D` is the type of `double` values.
  The archiving code never computes with a `double`, so there `D` is arbitrary.
* A boost archive is the sequence of primitive items it holds. `ar << x` appends an
  item, `ar >> x` removes the first item; reading from an exhausted archive, or
  reading an item of the wrong primitive type, raises `archive_exception`.
* A C++ exception is `Except.error`.
* The constructor of the model, `SetCell` and the statechart class are declared or used
  in the sources but defined elsewhere; where a theorem needs them they are modelled from
  the spec, and the definition says so.
-/

namespace ChasteElegans

/-! ## Machine integers -/

/-- Conversion of an integer value into a 32-bit `int` (two's complement wrap-around). -/
def toInt32 (n : Int) : Int := (n + 2 ^ 31) % 2 ^ 32 - 2 ^ 31

/-! ## Archives -/

/-- One primitive item held by an archive. -/
inductive ArchiveItem (D : Type) where
  | int (i : Int)
  | double (x : D)
  deriving DecidableEq, Repr

/-- An archive: its items, oldest first. -/
abbrev Archive (D : Type) := List (ArchiveItem D)

/-- The failures the archiving code can meet. -/
inductive Error where
  /-- Thrown by boost when `ar >> x` cannot read an `x`. -/
  | archive_exception
  /-- Thrown by `std::vector::at` on an index past the end. -/
  | out_of_range
  /-- Dereference of an empty `boost::shared_ptr` (no defined behaviour in C++). -/
  | null_pointer
  deriving DecidableEq, Repr

/-- The statement `ar << i` for an `int`. -/
def Archive.saveInt {D : Type} (ar : Archive D) (i : Int) : Archive D :=
  ar ++ [ArchiveItem.int i]

/-- The statement `ar << x` for a `double`. -/
def Archive.saveDouble {D : Type} (ar : Archive D) (x : D) : Archive D :=
  ar ++ [ArchiveItem.double x]

/-- The statement `ar >> i` for an `int`: the value read and the rest of the archive. -/
def Archive.loadInt {D : Type} : Archive D → Except Error (Int × Archive D)
  | ArchiveItem.int i :: rest => Except.ok (i, rest)
  | _ => Except.error Error.archive_exception

/-- The statement `ar >> x` for a `double`: the value read and the rest of the archive. -/
def Archive.loadDouble {D : Type} : Archive D → Except Error (D × Archive D)
  | ArchiveItem.double x :: rest => Except.ok (x, rest)
  | _ => Except.error Error.archive_exception

/-! ## The statechart and the cell-cycle model that wraps it -/

/-- The statechart class comes from `BasicStatechart.hpp`, which is not part of the
sources. The archiving code sees it only through `GetState()` and `GetVariables()`,
so a statechart is represented by what these two return. -/
structure CellStatechart (D : Type) where
  GetState : Int
  GetVariables : List D
  deriving DecidableEq, Repr

/-- The data members declared in `StatechartCellCycleModelSerializable.hpp`. An empty
`boost::shared_ptr` is `none`. -/
structure StatechartCellCycleModelSerializable (D : Type) where
  pStatechart : Option (CellStatechart D)
  mLoadingFromArchive : Bool
  TempVariableStorage : List D
  TempStateStorage : Int
  deriving DecidableEq, Repr

/-- Modelled from the spec: the body of the constructor
`StatechartCellCycleModelSerializable(bool LoadingFromArchive = false)` is in
`StatechartCellCycleModelSerializable.cpp`, which is not part of the sources. The spec
(4.1, 4.4) says that construction for restore leaves the automaton absent and that a
fresh model gets a default-initialised automaton attached immediately; the flag is
kept in `mLoadingFromArchive`. `fresh` is the default-initialised statechart. The two
storage members start empty and zero; `load_construct_data` assigns both. (The header
comment on the constructor says that it "leaves the statechart's pointer to its cell
NULL"; the spec's reading, that a model constructed for restore has no automaton until
`SetCell`, is the one followed here.) -/
def StatechartCellCycleModelSerializable.construct {D : Type} (fresh : CellStatechart D)
    (LoadingFromArchive : Bool) : StatechartCellCycleModelSerializable D :=
  { pStatechart := if LoadingFromArchive then none else some fresh
    mLoadingFromArchive := LoadingFromArchive
    TempVariableStorage := []
    TempStateStorage := 0 }

/-- The expression `v.at(i)` on a `std::vector`. -/
def vector_at {D : Type} (v : List D) (i : Nat) : Except Error D :=
  match v[i]? with
  | some x => Except.ok x
  | none => Except.error Error.out_of_range

/-- The expression `t->pStatechart->...`: the statechart the pointer refers to. -/
def deref {D : Type} (p : Option (CellStatechart D)) : Except Error (CellStatechart D) :=
  match p with
  | some sc => Except.ok sc
  | none => Except.error Error.null_pointer

/-- The loop `for(int i=0; i<v.size(); i++){ ar<<v.at(i); }` of `save_construct_data`.
The counter is compared as a `size_t`, so the loop runs over every index of `v`. (With
more than `2^31` elements the `int` counter would overflow on the way; the embedding
follows the loop bound `v.size()`.) -/
def saveVariables {D : Type} (v : List D) (ar : Archive D) : Except Error (Archive D) :=
  (List.range v.length).foldlM
    (fun a i => (vector_at v i).bind fun x => Except.ok (a.saveDouble x)) ar

/-- The function `save_construct_data` of `StatechartCellCycleModelSerializable.hpp`, lines 150-163.
It returns the archive after the call together with the model after the call. -/
def save_construct_data {D : Type} (ar : Archive D)
    (t : StatechartCellCycleModelSerializable D) :
    Except Error (Archive D × StatechartCellCycleModelSerializable D) :=
  (deref t.pStatechart).bind fun sc =>
    let state : Int := sc.GetState
    let ar1 := ar.saveInt state
    let v : List D := sc.GetVariables
    let numberOfVars : Int := toInt32 v.length
    let ar2 := ar1.saveInt numberOfVars
    (saveVariables v ar2).bind fun ar3 => Except.ok (ar3, t)

/-- The loop `for(int i=0; i<numberOfVars; i++){ ar >> value; v.push_back(value); }` of
`load_construct_data`; the first argument is the number of iterations left. -/
def loadVariables {D : Type} : Nat → Archive D → List D → Except Error (List D × Archive D)
  | 0, ar, v => Except.ok (v, ar)
  | k + 1, ar, v =>
    match ar.loadDouble with
    | Except.error e => Except.error e
    | Except.ok (value, rest) => loadVariables k rest (v ++ [value])

/-- The function `load_construct_data` of `StatechartCellCycleModelSerializable.hpp`, lines 165-185.
It returns the model built in place and the part of the archive not yet read. The loop
`for(int i=0; i<numberOfVars; i++)` runs `numberOfVars` times, and not at all when
`numberOfVars` is zero or negative: that is `numberOfVars.toNat` iterations. -/
def load_construct_data {D : Type} (fresh : CellStatechart D) (ar : Archive D) :
    Except Error (StatechartCellCycleModelSerializable D × Archive D) :=
  match ar.loadInt with
  | Except.error e => Except.error e
  | Except.ok (state, ar1) =>
    match ar1.loadInt with
    | Except.error e => Except.error e
    | Except.ok (numberOfVars, ar2) =>
      match loadVariables numberOfVars.toNat ar2 [] with
      | Except.error e => Except.error e
      | Except.ok (v, ar3) =>
        let t := StatechartCellCycleModelSerializable.construct fresh true
        let t1 := { t with TempStateStorage := state }
        let t2 := { t1 with TempVariableStorage := v }
        Except.ok (t2, ar3)

/-- Equality of two results of a fallible computation can be decided. -/
instance instDecidableEqExcept {ε α : Type} [DecidableEq ε] [DecidableEq α] :
    DecidableEq (Except ε α)
  | Except.ok a, Except.ok b =>
    if h : a = b then isTrue (by rw [h]) else isFalse (fun h' => h (Except.ok.inj h'))
  | Except.error a, Except.error b =>
    if h : a = b then isTrue (by rw [h]) else isFalse (fun h' => h (Except.error.inj h'))
  | Except.ok _, Except.error _ => isFalse (fun h => by cases h)
  | Except.error _, Except.ok _ => isFalse (fun h => by cases h)

/-- The snapshot record in the words of the spec (section 6):
`{stateId:int32, variableCount:int32, variables:float64[variableCount]}`, the count being
the number of variables. It is compared with what `save_construct_data` writes. -/
def specSnapshotRecord {D : Type} (stateId : Int) (vars : List D) : Archive D :=
  [ArchiveItem.int stateId, ArchiveItem.int vars.length] ++ vars.map ArchiveItem.double

/-! ## The `serialize` members -/

/-- The operand of one `archive & x` statement of a `serialize` member. -/
inductive Archived where
  /-- The operand `boost::serialization::base_object<AbstractCellCycleModel>(*this)`. -/
  | base_object_AbstractCellCycleModel
  /-- The operand `boost::serialization::base_object<AbstractSimpleCellCycleModel>(*this)`. -/
  | base_object_AbstractSimpleCellCycleModel
  /-- The operand `p_wrapper`, the value of
  `RandomNumberGenerator::Instance()->GetSerializationWrapper()`. -/
  | p_wrapper
  deriving DecidableEq, Repr

/-- The two kinds of archive `serialize` is instantiated with: for a saving archive
`&` is `<<`, for a loading archive it is `>>`. -/
inductive ArchiveKind where
  | saving
  | loading
  deriving DecidableEq, Repr

/-- The member `StatechartCellCycleModelSerializable::serialize`, lines 69-76 of the header. The
template parameter `Archive` is the type `W` with its operator `&`, here `amp`; what
`&` does with a base object or with the wrapper is boost and Chaste code. -/
def StatechartCellCycleModelSerializable.serialize {W E : Type}
    (amp : W → Archived → Except E W) (archive : W) : Except E W :=
  (amp archive Archived.base_object_AbstractCellCycleModel).bind fun archive1 =>
    amp archive1 Archived.p_wrapper

/-- The member `ElegansAdultDistanceBasedCellCycleModel::serialize`, lines 62-68 of its header. -/
def ElegansAdultDistanceBasedCellCycleModel.serialize {W E : Type}
    (amp : W → Archived → Except E W) (archive : W) : Except E W :=
  (amp archive Archived.base_object_AbstractSimpleCellCycleModel).bind fun archive1 =>
    amp archive1 Archived.p_wrapper

/-- An archive that only records, in order, the operands it is handed and in which
direction; its operator `&` never fails. -/
def recordingAmp (kind : ArchiveKind) (log : List (ArchiveKind × Archived)) (x : Archived) :
    Except Error (List (ArchiveKind × Archived)) :=
  Except.ok (log ++ [(kind, x)])

/-! ## The mass-corrected repulsion force -/

/-- The operations on `double` that `AddForceContribution` uses. -/
structure DoubleArith (D : Type) where
  /-- The sum `x + y`. -/
  add : D → D → D
  /-- The product `x * y`. -/
  mul : D → D → D
  /-- The quotient `x / y`. -/
  div : D → D → D
  /-- The comparison `x < y`. -/
  lt : D → D → Bool
  /-- The test `std::isnan(x)`. -/
  isnan : D → Bool
  /-- The `double` an integer literal or an `int` operand converts to. -/
  ofInt : Int → D

/-- A `c_vector<double, DIM>`. -/
abbrev c_vector (D : Type) (DIM : Nat) := Fin DIM → D

/-- What the code uses of a `Node<DIM>`, a Chaste class outside the sources. The applied
force of a node is kept as the sequence of contributions it has been handed through
`AddAppliedForceContribution`, oldest first (Chaste sums them). -/
structure Node (D : Type) (DIM : Nat) where
  GetIndex : Nat
  rGetLocation : c_vector D DIM
  GetRadius : D
  appliedForceContributions : List (c_vector D DIM)

/-- What the code uses of an `AbstractCellPopulation<DIM>`. A `Node<DIM>*` is an address,
a natural number, and `node` is the memory. `isNodeBasedCellPopulation` says whether the
`dynamic_cast` to `NodeBasedCellPopulation<DIM>*` succeeds. `calculateForceCalls` is a
log of the calls of `CalculateForceBetweenNodes` made on this population, oldest first:
it is bookkeeping of the embedding, not a C++ member. -/
structure AbstractCellPopulation (D : Type) (DIM : Nat) where
  isNodeBasedCellPopulation : Bool
  node : Nat → Node D DIM
  rGetNodePairs : List (Nat × Nat)
  calculateForceCalls : List (Nat × Nat)

/-- The Chaste and uBLAS functions `AddForceContribution` calls, which are outside the
sources: the mesh method `GetVectorFromAtoB`, the Euclidean norm `norm_2`, and the
inherited virtual method `CalculateForceBetweenNodes`. -/
structure ForceEnvironment (D : Type) (DIM : Nat) where
  GetVectorFromAtoB : c_vector D DIM → c_vector D DIM → c_vector D DIM
  norm_2 : c_vector D DIM → D
  CalculateForceBetweenNodes : Nat → Nat → AbstractCellPopulation D DIM → c_vector D DIM

/-- How a call ends, with the state it leaves: normal return, a Chaste `EXCEPTION`, or
a failed `assert`. -/
inductive Outcome (σ : Type) where
  | returned (s : σ)
  | exception (message : String) (s : σ)
  | assertion_failed (s : σ)

/-- The state an outcome leaves. -/
def Outcome.state {σ : Type} : Outcome σ → σ
  | Outcome.returned s => s
  | Outcome.exception _ s => s
  | Outcome.assertion_failed s => s

/-- The call `p_node->AddAppliedForceContribution(f)` on the node at address `p`. -/
def AddAppliedForceContribution {D : Type} {DIM : Nat} (pop : AbstractCellPopulation D DIM)
    (p : Nat) (f : c_vector D DIM) : AbstractCellPopulation D DIM :=
  { pop with
    node := fun q =>
      if q = p then
        { pop.node p with
          appliedForceContributions := (pop.node p).appliedForceContributions ++ [f] }
      else pop.node q }

/-- The body of the loop over the node pairs in `AddForceContribution`, lines 60-98 of
`RepulsionForceMassCorrected.cpp`, for the pair `(p_node_a, p_node_b)`. -/
def pairStep {D : Type} {DIM : Nat} (A : DoubleArith D) (env : ForceEnvironment D DIM)
    (pair : Nat × Nat) (pop : AbstractCellPopulation D DIM) :
    Outcome (AbstractCellPopulation D DIM) :=
  let p_node_a := pair.1
  let p_node_b := pair.2
  let node_a_location := (pop.node p_node_a).rGetLocation
  let node_b_location := (pop.node p_node_b).rGetLocation
  let node_a_radius := (pop.node p_node_a).GetRadius
  let node_b_radius := (pop.node p_node_b).GetRadius
  let unit_difference := env.GetVectorFromAtoB node_a_location node_b_location
  let rest_length := A.add node_a_radius node_b_radius
  if A.lt (env.norm_2 unit_difference) rest_length then
    let force := env.CalculateForceBetweenNodes (pop.node p_node_a).GetIndex
      (pop.node p_node_b).GetIndex pop
    let pop1 := { pop with
      calculateForceCalls := pop.calculateForceCalls ++
        [((pop.node p_node_a).GetIndex, (pop.node p_node_b).GetIndex)] }
    let negative_force : c_vector D DIM := fun j => A.mul (A.ofInt (-1)) (force j)
    if (List.finRange DIM).any (fun j => A.isnan (force j)) then
      Outcome.assertion_failed pop1
    else
      let force1 : c_vector D DIM :=
        fun j => A.div (force j) (A.div node_a_radius (A.ofInt 10))
      let negative_force1 : c_vector D DIM :=
        fun j => A.div (negative_force j) (A.div node_b_radius (A.ofInt 10))
      let pop2 := AddAppliedForceContribution pop1 p_node_a force1
      let pop3 := AddAppliedForceContribution pop2 p_node_b negative_force1
      Outcome.returned pop3
  else
    Outcome.returned pop

/-- The loop over `r_node_pairs` in `AddForceContribution`: the pairs still to visit and
the state reached. -/
def forEachNodePair {D : Type} {DIM : Nat} (A : DoubleArith D) (env : ForceEnvironment D DIM) :
    List (Nat × Nat) → AbstractCellPopulation D DIM → Outcome (AbstractCellPopulation D DIM)
  | [], pop => Outcome.returned pop
  | pair :: rest, pop =>
    match pairStep A env pair pop with
    | Outcome.returned pop1 => forEachNodePair A env rest pop1
    | Outcome.exception m pop1 => Outcome.exception m pop1
    | Outcome.assertion_failed pop1 => Outcome.assertion_failed pop1

/-- The method `RepulsionForceMassCorrected<DIM>::AddForceContribution`, lines 45-100 of
`RepulsionForceMassCorrected.cpp`. -/
def AddForceContribution {D : Type} {DIM : Nat} (A : DoubleArith D)
    (env : ForceEnvironment D DIM) (rCellPopulation : AbstractCellPopulation D DIM) :
    Outcome (AbstractCellPopulation D DIM) :=
  if rCellPopulation.isNodeBasedCellPopulation = false then
    Outcome.exception
      "RepulsionForceMassCorrected is to be used with a NodeBasedCellPopulation only"
      rCellPopulation
  else
    forEachNodePair A env rCellPopulation.rGetNodePairs rCellPopulation

/-- Arithmetic without rounding, on the rationals: the idealisation of `double` in which
no operation rounds and no value is a NaN. -/
def exactArith : DoubleArith ℚ where
  add := fun x y => x + y
  mul := fun x y => x * y
  div := fun x y => x / y
  lt := fun x y => decide (x < y)
  isnan := fun _ => false
  ofInt := fun i => (i : ℚ)

/-! ## IEEE 754 binary64 arithmetic

The C++ type `double` is binary64 with round to nearest, ties to even. Every finite
binary64 value is an integer multiple of `2^(-1074)`, so a finite value is kept as that
integer. An exact result is rounded to at most 53 significant bits of that integer, which
is binary64 rounding for normal and subnormal results alike. -/

/-- An IEEE 754 binary64 value: `finite k` is the number `k * 2^(-1074)`. The two zeros
are not told apart, and all NaNs are one value. -/
inductive Binary64 where
  | finite (k : Int)
  | infinity (negative : Bool)
  | nan
  deriving DecidableEq, Repr

namespace Binary64

/-- The position of the leading bit of `n` (`0` for `n = 0`), for `n < 2^8192`. -/
def log2 (n : Nat) : Nat :=
  [4096, 2048, 1024, 512, 256, 128, 64, 32, 16, 8, 4, 2, 1].foldl
    (fun e p => if 2 ^ (e + p) ≤ n then e + p else e) 0

/-- The natural number with at most 53 significant bits nearest to `n / d`, ties going
to the even significand. -/
def roundNat (n d : Nat) : Nat :=
  let q := n / d
  let s := log2 q - 52
  let step := d * 2 ^ s
  let m := n / step
  let r := n % step
  let m1 :=
    if 2 * r < step then m
    else if step < 2 * r then m + 1
    else if m % 2 = 0 then m
    else m + 1
  m1 * 2 ^ s

/-- The binary64 value that the exact result `n / d`, in units of `2^(-1074)` and with the
given sign, rounds to. Past the largest finite value, `(2^53 - 1) * 2^2045` units, the
result overflows to an infinity. -/
def round (negative : Bool) (n d : Nat) : Binary64 :=
  let k := roundNat n d
  if 2 ^ 2098 ≤ k then infinity negative
  else finite (if negative then -(k : Int) else (k : Int))

/-- Conversion of an integer to binary64. -/
def ofInt (i : Int) : Binary64 := round (decide (i < 0)) (i.natAbs * 2 ^ 1074) 1

/-- The binary64 sum. -/
def add : Binary64 → Binary64 → Binary64
  | finite a, finite b => round (decide (a + b < 0)) (a + b).natAbs 1
  | finite _, infinity s => infinity s
  | infinity s, finite _ => infinity s
  | infinity s, infinity t => if s = t then infinity s else nan
  | _, _ => nan

/-- The binary64 product. -/
def mul : Binary64 → Binary64 → Binary64
  | finite a, finite b => round (decide (a * b < 0)) (a * b).natAbs (2 ^ 1074)
  | finite a, infinity s => if a = 0 then nan else infinity (xor (decide (a < 0)) s)
  | infinity s, finite a => if a = 0 then nan else infinity (xor s (decide (a < 0)))
  | infinity s, infinity t => infinity (xor s t)
  | _, _ => nan

/-- The binary64 quotient (a zero divisor is taken as the positive zero). -/
def div : Binary64 → Binary64 → Binary64
  | finite a, finite b =>
    if b = 0 then (if a = 0 then nan else infinity (decide (a < 0)))
    else round (xor (decide (a < 0)) (decide (b < 0))) (a.natAbs * 2 ^ 1074) b.natAbs
  | finite _, infinity _ => finite 0
  | infinity s, finite b => infinity (xor s (decide (b < 0)))
  | _, _ => nan

/-- The binary64 comparison `x < y`, false when an operand is a NaN. -/
def lt : Binary64 → Binary64 → Bool
  | finite a, finite b => decide (a < b)
  | finite _, infinity s => !s
  | infinity s, finite _ => s
  | infinity s, infinity t => s && !t
  | _, _ => false

/-- The binary64 comparison `x <= y`, false when an operand is a NaN. -/
def le : Binary64 → Binary64 → Bool
  | finite a, finite b => decide (a ≤ b)
  | finite _, infinity s => !s
  | infinity s, finite _ => s
  | infinity s, infinity t => s || !t
  | _, _ => false

/-- The test `std::isnan`. -/
def isnan : Binary64 → Bool
  | nan => true
  | _ => false

/-- The absolute value. -/
def abs : Binary64 → Binary64
  | finite a => finite a.natAbs
  | infinity _ => infinity false
  | nan => nan

/-- The finite value `± significand * 2^exponent`, for `exponent ≥ -1074`. -/
def ofSignificand (negative : Bool) (significand : Nat) (exponent : Int) : Binary64 :=
  let k : Nat := significand * 2 ^ (exponent + 1074).toNat
  finite (if negative then -(k : Int) else (k : Int))

/-- The integer `k` of a finite value `k * 2^(-1074)`, and `0` for the other values. For
finite `x` and `y` the integer `x.units * y.units` is the exact product of the two numbers
in units of `2^(-2148)`. -/
def units : Binary64 → Int
  | finite k => k
  | _ => 0

end Binary64

/-- The arithmetic of the C++ type `double`. -/
def binary64Arith : DoubleArith Binary64 where
  add := Binary64.add
  mul := Binary64.mul
  div := Binary64.div
  lt := Binary64.lt
  isnan := Binary64.isnan
  ofInt := Binary64.ofInt

/-! ## A concrete population on a line -/

/-- Two nodes on a line: node `0` at `0.0` with radius `1.0` and node `1` at `1.0` with
radius `9.0`, listed as one node pair; no force has been applied yet. -/
def twoNodes : AbstractCellPopulation Binary64 1 where
  isNodeBasedCellPopulation := true
  node := fun p =>
    if p = 0 then
      { GetIndex := 0
        rGetLocation := fun _ => Binary64.ofInt 0
        GetRadius := Binary64.ofInt 1
        appliedForceContributions := [] }
    else
      { GetIndex := 1
        rGetLocation := fun _ => Binary64.ofInt 1
        GetRadius := Binary64.ofInt 9
        appliedForceContributions := [] }
  rGetNodePairs := [(0, 1)]
  calculateForceCalls := []

/-- The same two nodes held by a population that is not node based. -/
def twoNodesNotNodeBased : AbstractCellPopulation Binary64 1 :=
  { twoNodes with isNodeBasedCellPopulation := false }

/-- Two nodes on a line in exact contact: node `0` at `0.0` with radius `1.0` and node
`1` at `10.0` with radius `9.0`, so that their separation `10.0` is the sum of the radii;
they are listed as one node pair and no force has been applied yet. -/
def twoNodesInContact : AbstractCellPopulation Binary64 1 where
  isNodeBasedCellPopulation := true
  node := fun p =>
    if p = 0 then
      { GetIndex := 0
        rGetLocation := fun _ => Binary64.ofInt 0
        GetRadius := Binary64.ofInt 1
        appliedForceContributions := [] }
    else
      { GetIndex := 1
        rGetLocation := fun _ => Binary64.ofInt 10
        GetRadius := Binary64.ofInt 9
        appliedForceContributions := [] }
  rGetNodePairs := [(0, 1)]
  calculateForceCalls := []

/-- A line without periodicity, `GetVectorFromAtoB(a, b) = b - a` and `norm_2(v) = |v[0]|`,
with a force law that returns the force `F` for every pair. -/
def lineEnvironment (F : Binary64) : ForceEnvironment Binary64 1 where
  GetVectorFromAtoB := fun a b j =>
    Binary64.add (b j) (Binary64.mul (Binary64.ofInt (-1)) (a j))
  norm_2 := fun v => Binary64.abs (v 0)
  CalculateForceBetweenNodes := fun _ _ _ _ => F

/-- Whether the call returned normally. -/
def Outcome.isReturned {σ : Type} : Outcome σ → Bool
  | Outcome.returned _ => true
  | _ => false

/-- Whether the call ended in a failed `assert`. -/
def Outcome.isAssertionFailed {σ : Type} : Outcome σ → Bool
  | Outcome.assertion_failed _ => true
  | _ => false

/-- Whether the call ended in an exception. -/
def Outcome.isException {σ : Type} : Outcome σ → Bool
  | Outcome.exception _ _ => true
  | _ => false

/-! ## Phase 2 of restore -/

/-- The failures of a restore: an archive failure of phase 1, or the decode mismatch of
phase 2 (spec, section 7). -/
inductive RestoreError where
  | archive (e : Error)
  | DecodeMismatch
  deriving DecidableEq, Repr

/-- Modelled from the spec: `SetStateId` of the automaton, whose class is in
`BasicStatechart.hpp`, not part of the sources. The spec (4.2, 7) gives the automaton a
setter for the state id and makes a state id that the running automaton does not
recognise a `DecodeMismatch`; `recognises` says which state ids it recognises. -/
def CellStatechart.SetStateId {D : Type} (recognises : Int → Bool)
    (automaton : CellStatechart D) (stateId : Int) : Except RestoreError (CellStatechart D) :=
  if recognises stateId then Except.ok { automaton with GetState := stateId }
  else Except.error RestoreError.DecodeMismatch

/-- Modelled from the spec: `SetVariables` of the automaton, whose class is in
`BasicStatechart.hpp`, not part of the sources. The length of the variable vector is
defined by the automaton (spec 3); a sequence of another length is a `DecodeMismatch`,
never truncated, padded or replaced by a default (spec 7, 8). -/
def CellStatechart.SetVariables {D : Type} (automaton : CellStatechart D) (v : List D) :
    Except RestoreError (CellStatechart D) :=
  if v.length = automaton.GetVariables.length then
    Except.ok { automaton with GetVariables := v }
  else Except.error RestoreError.DecodeMismatch

/-- Modelled from the spec: `Decode(snapshot, automaton)` of spec 4.3, which sets the state
id first and then the variables, the automaton validating both; the code that decodes is
in `StatechartCellCycleModelSerializable.cpp` and `BasicStatechart.hpp`, not part of the
sources. -/
def Decode {D : Type} (recognises : Int → Bool) (snapshot : Int × List D)
    (automaton : CellStatechart D) : Except RestoreError (CellStatechart D) :=
  (automaton.SetStateId recognises snapshot.1).bind fun a => a.SetVariables snapshot.2

/-- Modelled from the spec: the member `SetCell`, declared in the header, whose body is in
`StatechartCellCycleModelSerializable.cpp`, not part of the sources. On a model built by
`load_construct_data` it is phase 2 of spec 4.4: it constructs a fresh automaton, decodes
the pending snapshot into it, clears the snapshot and leaves the model attached. On a
fresh model it attaches the automaton the model already has. The cell itself is not
represented. -/
def StatechartCellCycleModelSerializable.SetCell {D : Type} (recognises : Int → Bool)
    (fresh : CellStatechart D) (t : StatechartCellCycleModelSerializable D) :
    Except RestoreError (StatechartCellCycleModelSerializable D) :=
  if t.mLoadingFromArchive then
    (Decode recognises (t.TempStateStorage, t.TempVariableStorage) fresh).bind fun automaton =>
      Except.ok
        { pStatechart := some automaton
          mLoadingFromArchive := false
          TempVariableStorage := []
          TempStateStorage := 0 }
  else Except.ok t

/-- The load of one model from an archive: phase 1, `load_construct_data`, followed by
phase 2, `SetCell`. -/
def restoreModel {D : Type} (recognises : Int → Bool) (fresh : CellStatechart D)
    (ar : Archive D) :
    Except RestoreError (StatechartCellCycleModelSerializable D × Archive D) :=
  match load_construct_data fresh ar with
  | Except.error e => Except.error (RestoreError.archive e)
  | Except.ok (t, rest) =>
    match t.SetCell recognises fresh with
    | Except.error e => Except.error e
    | Except.ok t1 => Except.ok (t1, rest)

/-! ## Concrete models and records -/

/-- A model whose statechart is in state `7` with the two variables `10.0` and `20.0`. -/
def attachedModel : StatechartCellCycleModelSerializable Binary64 where
  pStatechart := some { GetState := 7, GetVariables := [Binary64.ofInt 10, Binary64.ofInt 20] }
  mLoadingFromArchive := false
  TempVariableStorage := []
  TempStateStorage := 0

/-- A model whose statechart is in state `0` and reports `2^31` variables, all `0.0`. -/
def modelWithManyVariables : StatechartCellCycleModelSerializable Binary64 where
  pStatechart := some { GetState := 0, GetVariables := List.replicate (2 ^ 31) (Binary64.ofInt 0) }
  mLoadingFromArchive := false
  TempVariableStorage := []
  TempStateStorage := 0

/-- A default-initialised statechart that has two variables. -/
def twoVariableStatechart : CellStatechart Binary64 where
  GetState := 0
  GetVariables := [Binary64.ofInt 0, Binary64.ofInt 0]

/-- What a load has stored: `TempStateStorage`, `TempVariableStorage` and the part of the
archive it has not read. -/
def restored {D : Type}
    (r : Except Error (StatechartCellCycleModelSerializable D × Archive D)) :
    Except Error (Int × List D × Archive D) :=
  r.map fun p => (p.1.TempStateStorage, p.1.TempVariableStorage, p.2)

/-- The first components of the contributions that the node at address `p` holds when
the call has ended. -/
def receivedBy {D : Type} {DIM : Nat} (o : Outcome (AbstractCellPopulation D (DIM + 1)))
    (p : Nat) : List D :=
  (o.state.node p).appliedForceContributions.map fun f => f 0

set_option exponentiation.threshold 4096

/-! ## Theorems: the snapshot codec -/

theorem saveVariables_take {D : Type} (v : List D) (ar : Archive D) (n : Nat)
    (hn : n ≤ v.length) :
    (List.range n).foldlM
      (fun a i => (vector_at v i).bind fun x => Except.ok (Archive.saveDouble a x)) ar
      = Except.ok (ar ++ (v.take n).map ArchiveItem.double) := by
  induction n with
  | zero => simp [pure, Except.pure]
  | succ k ih =>
    have hk : k < v.length := by omega
    rw [List.range_succ, List.foldlM_append, ih (by omega)]
    have h1 : vector_at v k = Except.ok v[k] := by
      simp only [vector_at, List.getElem?_eq_getElem hk]
    have h2 : List.take (k + 1) v = List.take k v ++ [v[k]] := by
      rw [List.take_succ, List.getElem?_eq_getElem hk]; rfl
    simp only [List.foldlM_cons, List.foldlM_nil, h1, h2, Except.bind, Archive.saveDouble,
      List.map_append, List.map_cons, List.map_nil]
    show Except.ok _ = Except.ok _
    rw [List.append_assoc]

theorem saveVariables_eq {D : Type} (v : List D) (ar : Archive D) :
    saveVariables v ar = Except.ok (ar ++ v.map ArchiveItem.double) := by
  unfold saveVariables
  rw [saveVariables_take v ar v.length (le_refl _), List.take_length]

/-- What `save_construct_data` does on a model whose statechart pointer is set. -/
theorem save_construct_data_some {D : Type} (ar : Archive D)
    (t : StatechartCellCycleModelSerializable D) (sc : CellStatechart D)
    (h : t.pStatechart = some sc) :
    save_construct_data ar t =
      Except.ok (ar ++ (ArchiveItem.int sc.GetState ::
        ArchiveItem.int (toInt32 sc.GetVariables.length) ::
        sc.GetVariables.map ArchiveItem.double), t) := by
  simp only [save_construct_data, h, deref, Except.bind, saveVariables_eq, Archive.saveInt,
    List.append_assoc, List.singleton_append]
  rfl

/-- What `save_construct_data` does on a model whose statechart pointer is empty. -/
theorem save_construct_data_none {D : Type} (ar : Archive D)
    (t : StatechartCellCycleModelSerializable D) (h : t.pStatechart = none) :
    save_construct_data ar t = Except.error Error.null_pointer := by
  simp only [save_construct_data, h, deref, Except.bind]

theorem toInt32_of_lt (n : Nat) (h : n < 2 ^ 31) : toInt32 (n : Int) = (n : Int) := by
  unfold toInt32
  have h1 : ((n : Int) + 2 ^ 31) % 2 ^ 32 = (n : Int) + 2 ^ 31 := by
    apply Int.emod_eq_of_lt <;> omega
  omega

theorem loadVariables_map {D : Type} (v : List D) (rest : Archive D) (acc : List D) :
    loadVariables v.length (v.map ArchiveItem.double ++ rest) acc
      = Except.ok (acc ++ v, rest) := by
  induction v generalizing acc with
  | nil => simp [loadVariables]
  | cons x xs ih => simp [loadVariables, Archive.loadDouble, ih]

/-- The loop fails when the doubles run out before the count is reached. -/
theorem loadVariables_short {D : Type} (ds : List D) (tail : Archive D) (acc : List D)
    (k : Nat) (hk : ds.length < k) (htail : ∀ x r, tail ≠ ArchiveItem.double x :: r) :
    loadVariables k (ds.map ArchiveItem.double ++ tail) acc
      = Except.error Error.archive_exception := by
  induction ds generalizing acc k with
  | nil =>
    obtain ⟨j, rfl⟩ : ∃ j, k = j + 1 := ⟨k - 1, by simp at hk; omega⟩
    cases tail with
    | nil => simp [loadVariables, Archive.loadDouble]
    | cons item r =>
      cases item with
      | int i => simp [loadVariables, Archive.loadDouble]
      | double x => exact absurd rfl (htail x r)
  | cons x xs ih =>
    obtain ⟨j, rfl⟩ : ∃ j, k = j + 1 := ⟨k - 1, by simp at hk; omega⟩
    have hj : xs.length < j := by simp at hk; omega
    simp [loadVariables, Archive.loadDouble, ih _ j hj]

/-- The loop, when it succeeds, has pushed exactly one value per iteration. -/
theorem loadVariables_length {D : Type} (k : Nat) (ar : Archive D) (acc v : List D)
    (r : Archive D) (h : loadVariables k ar acc = Except.ok (v, r)) :
    v.length = acc.length + k := by
  induction k generalizing ar acc with
  | zero =>
    simp only [loadVariables, Except.ok.injEq, Prod.mk.injEq] at h
    rw [← h.1]; rfl
  | succ j ih =>
    cases ar with
    | nil => simp [loadVariables, Archive.loadDouble] at h
    | cons item rest =>
      cases item with
      | int i => simp [loadVariables, Archive.loadDouble] at h
      | double x =>
        simp only [loadVariables, Archive.loadDouble] at h
        have := ih rest (acc ++ [x]) h
        simp at this
        omega

/-- The only failure of the loop is the archive error. -/
theorem loadVariables_error_kind {D : Type} (k : Nat) (ar : Archive D) (acc : List D)
    (e : Error) (h : loadVariables k ar acc = Except.error e)
    (he : e ≠ Error.archive_exception) : False := by
  induction k generalizing ar acc with
  | zero => simp [loadVariables] at h
  | succ j ih =>
    cases ar with
    | nil =>
      simp only [loadVariables, Archive.loadDouble, Except.error.injEq] at h
      exact he h.symm
    | cons item rest =>
      cases item with
      | int i =>
        simp only [loadVariables, Archive.loadDouble, Except.error.injEq] at h
        exact he h.symm
      | double x =>
        simp only [loadVariables, Archive.loadDouble] at h
        exact ih rest (acc ++ [x]) h

/-- What `load_construct_data` does on a record that holds the variables it declares. -/
theorem load_construct_data_record {D : Type} (fresh : CellStatechart D) (s n : Int)
    (v : List D) (rest : Archive D) (hn : v.length = n.toNat) :
    load_construct_data fresh
        (ArchiveItem.int s :: ArchiveItem.int n :: (v.map ArchiveItem.double ++ rest))
      = Except.ok ({ pStatechart := none, mLoadingFromArchive := true,
                     TempVariableStorage := v, TempStateStorage := s }, rest) := by
  simp only [load_construct_data, Archive.loadInt, ← hn, loadVariables_map,
    StatechartCellCycleModelSerializable.construct, List.nil_append, if_true]

/-- C1. Round trip of the statechart snapshot: when the statechart of a model reports the
state id `s` and the variables `v`, fewer than `2^31` of them, `save_construct_data`
succeeds and appends items `w` to the archive, and `load_construct_data` run on `w`
(whatever follows it) succeeds and builds a model whose `TempStateStorage` is `s` and whose
`TempVariableStorage` is `v`. -/
theorem snapshot_round_trip {D : Type} (fresh : CellStatechart D)
    (t : StatechartCellCycleModelSerializable D) (s : Int) (v : List D)
    (hsc : t.pStatechart = some { GetState := s, GetVariables := v })
    (hlen : v.length < 2 ^ 31) :
    ∃ w t1, (∀ ar, save_construct_data ar t = Except.ok (ar ++ w, t)) ∧
      (∀ rest, load_construct_data fresh (w ++ rest) = Except.ok (t1, rest)) ∧
      t1.TempStateStorage = s ∧ t1.TempVariableStorage = v := by
  refine ⟨ArchiveItem.int s :: ArchiveItem.int (v.length : Int) :: v.map ArchiveItem.double,
    { pStatechart := none, mLoadingFromArchive := true,
      TempVariableStorage := v, TempStateStorage := s }, ?_, ?_, rfl, rfl⟩
  · intro ar
    rw [save_construct_data_some ar t _ hsc, toInt32_of_lt _ hlen]
  · intro rest
    exact load_construct_data_record fresh s (v.length : Int) v rest (by simp)

/-- C1, at the model in state `7` with variables `10, 20`. -/
theorem snapshot_round_trip_witness :
    ∃ w t1, (∀ ar, save_construct_data ar attachedModel = Except.ok (ar ++ w, attachedModel)) ∧
      (∀ rest, load_construct_data twoVariableStatechart (w ++ rest) = Except.ok (t1, rest)) ∧
      t1.TempStateStorage = 7 ∧
      t1.TempVariableStorage = [Binary64.ofInt 10, Binary64.ofInt 20] :=
  snapshot_round_trip twoVariableStatechart attachedModel 7
    [Binary64.ofInt 10, Binary64.ofInt 20] rfl (by decide)

/-- C2, as stated, fails on a model with `2^31` variables: the count written is
`-2147483648`, so the record written is not the state id, the number of variables and the
variables. -/
theorem snapshot_layout_counterexample :
    save_construct_data [] modelWithManyVariables =
        Except.ok (ArchiveItem.int 0 :: ArchiveItem.int (-2147483648) ::
          (List.replicate (2 ^ 31) (Binary64.ofInt 0)).map ArchiveItem.double, modelWithManyVariables) ∧
      save_construct_data [] modelWithManyVariables ≠
        Except.ok (specSnapshotRecord 0 (List.replicate (2 ^ 31) (Binary64.ofInt 0)),
          modelWithManyVariables) := by
  have h : save_construct_data [] modelWithManyVariables =
      Except.ok (ArchiveItem.int 0 :: ArchiveItem.int (-2147483648) ::
        (List.replicate (2 ^ 31) (Binary64.ofInt 0)).map ArchiveItem.double, modelWithManyVariables) := by
    rw [save_construct_data_some [] modelWithManyVariables
      { GetState := 0, GetVariables := List.replicate (2 ^ 31) (Binary64.ofInt 0) } rfl]
    simp only [List.length_replicate, List.nil_append]
    have h32 : toInt32 ((2 ^ 31 : Nat) : Int) = -2147483648 := by decide
    rw [h32]
  refine ⟨h, ?_⟩
  rw [h]
  intro hEq
  have h1 := (Prod.mk.inj (Except.ok.inj hEq)).1
  simp only [specSnapshotRecord, List.length_replicate, List.cons_append, List.nil_append,
    List.cons.injEq, ArchiveItem.int.injEq] at h1
  have h2 := h1.2.1
  norm_num at h2

/-- C2, amended. Snapshot layout: for a model whose statechart reports fewer than `2^31`
variables, `save_construct_data` appends exactly the state id, then the number of
variables, then the variables in index order, and nothing else, and leaves the model as it
was. `load_construct_data` reads in the same order: a record made of a state id, a count
and that many doubles is read whole; the second item is read as the count, so a double in
its place is an archive error, and so is a double in the place of the state id. -/
theorem snapshot_layout {D : Type} (fresh : CellStatechart D) (ar : Archive D)
    (t : StatechartCellCycleModelSerializable D) (sc : CellStatechart D)
    (hsc : t.pStatechart = some sc) (hlen : sc.GetVariables.length < 2 ^ 31) :
    save_construct_data ar t =
        Except.ok (ar ++ specSnapshotRecord sc.GetState sc.GetVariables, t) ∧
      (∀ (s n : Int) (v : List D) (rest : Archive D), v.length = n.toNat →
        ∃ t1, load_construct_data fresh
            (ArchiveItem.int s :: ArchiveItem.int n :: (v.map ArchiveItem.double ++ rest))
          = Except.ok (t1, rest) ∧ t1.TempStateStorage = s ∧ t1.TempVariableStorage = v) ∧
      (∀ (s : Int) (x : D) (rest : Archive D),
        load_construct_data fresh (ArchiveItem.int s :: ArchiveItem.double x :: rest)
          = Except.error Error.archive_exception) ∧
      (∀ (x : D) (rest : Archive D),
        load_construct_data fresh (ArchiveItem.double x :: rest)
          = Except.error Error.archive_exception) := by
  refine ⟨?_, ?_, ?_, ?_⟩
  · rw [save_construct_data_some ar t sc hsc, toInt32_of_lt _ hlen]
    rfl
  · intro s n v rest hn
    exact ⟨_, load_construct_data_record fresh s n v rest hn, rfl, rfl⟩
  · intro s x rest
    simp [load_construct_data, Archive.loadInt]
  · intro x rest
    simp [load_construct_data, Archive.loadInt]

/-- C2, amended, at the model in state `7` with variables `10, 20`. -/
theorem snapshot_layout_witness :
    save_construct_data [ArchiveItem.int 1] attachedModel =
      Except.ok ([ArchiveItem.int 1, ArchiveItem.int 7, ArchiveItem.int 2,
        ArchiveItem.double (Binary64.ofInt 10), ArchiveItem.double (Binary64.ofInt 20)],
        attachedModel) :=
  (snapshot_layout twoVariableStatechart [ArchiveItem.int 1] attachedModel
    { GetState := 7, GetVariables := [Binary64.ofInt 10, Binary64.ofInt 20] } rfl
    (by decide)).1

/-- C3. A truncated archive is rejected: when the archive holds a state id and a count
`n > 0` followed by fewer than `n` readable doubles (the archive ends there, or the next
item is not a double), `load_construct_data` fails with the archive error and builds no
model. -/
theorem truncated_archive_rejected {D : Type} (fresh : CellStatechart D) (s n : Int)
    (ds : List D) (tail : Archive D) (hn : 0 < n) (hshort : (ds.length : Int) < n)
    (htail : ∀ x r, tail ≠ ArchiveItem.double x :: r) :
    load_construct_data fresh
        (ArchiveItem.int s :: ArchiveItem.int n :: (ds.map ArchiveItem.double ++ tail))
      = Except.error Error.archive_exception := by
  have hk : ds.length < n.toNat := by omega
  simp only [load_construct_data, Archive.loadInt, loadVariables_short ds tail [] _ hk htail]

/-- C3, at a record that declares three variables and holds two. -/
theorem truncated_archive_rejected_witness :
    load_construct_data twoVariableStatechart
        [ArchiveItem.int 7, ArchiveItem.int 3, ArchiveItem.double (Binary64.ofInt 10),
          ArchiveItem.double (Binary64.ofInt 20)]
      = Except.error Error.archive_exception :=
  truncated_archive_rejected twoVariableStatechart 7 3
    [Binary64.ofInt 10, Binary64.ofInt 20] [] (by decide) (by decide)
    (by intro x r h; cases h)

/-- C4, as stated, fails on a record that declares `-1` variables: the load succeeds and
stores the empty sequence, whose length `0` is not the declared count. -/
theorem restored_length_counterexample :
    restored (load_construct_data twoVariableStatechart
        [ArchiveItem.int 7, ArchiveItem.int (-1), ArchiveItem.double (Binary64.ofInt 10)])
      = Except.ok (7, [], [ArchiveItem.double (Binary64.ofInt 10)]) ∧
      (([] : List Binary64).length : Int) ≠ -1 := by
  decide

/-- C4, amended. Length of a restored record: `load_construct_data` either fails with the
archive error or the archive starts with a state id and a count and the model built has
exactly `max(count, 0)` variables in `TempVariableStorage`: the declared count when it is
not negative, and none when it is negative. A record with a negative count is always
accepted: the load succeeds, stores no variable and reads nothing after the count. -/
theorem restored_length {D : Type} (fresh : CellStatechart D) (ar : Archive D) :
    (load_construct_data fresh ar = Except.error Error.archive_exception ∨
      ∃ (s n : Int) (ar2 : Archive D) (t1 : StatechartCellCycleModelSerializable D)
        (r : Archive D),
        ar = ArchiveItem.int s :: ArchiveItem.int n :: ar2 ∧
        load_construct_data fresh ar = Except.ok (t1, r) ∧
        t1.TempVariableStorage.length = n.toNat ∧
        (0 ≤ n → (t1.TempVariableStorage.length : Int) = n) ∧
        (n < 0 → t1.TempVariableStorage = [])) ∧
    (∀ (s n : Int) (ar2 : Archive D), n < 0 →
      restored (load_construct_data fresh (ArchiveItem.int s :: ArchiveItem.int n :: ar2))
        = Except.ok (s, [], ar2)) := by
  constructor
  · cases ar with
    | nil => left; simp [load_construct_data, Archive.loadInt]
    | cons i1 ar1 =>
      cases i1 with
      | double x => left; simp [load_construct_data, Archive.loadInt]
      | int s =>
        cases ar1 with
        | nil => left; simp [load_construct_data, Archive.loadInt]
        | cons i2 ar2 =>
          cases i2 with
          | double x => left; simp [load_construct_data, Archive.loadInt]
          | int n =>
            cases hl : loadVariables n.toNat ar2 [] with
            | error e =>
              left
              cases e with
              | archive_exception => simp [load_construct_data, Archive.loadInt, hl]
              | out_of_range =>
                exact absurd hl (loadVariables_error_kind _ _ _ _ · (by simp))
              | null_pointer =>
                exact absurd hl (loadVariables_error_kind _ _ _ _ · (by simp))
            | ok p =>
              right
              obtain ⟨v, r⟩ := p
              have hlen := loadVariables_length _ _ _ _ _ hl
              simp only [List.length_nil, Nat.zero_add] at hlen
              refine ⟨s, n, ar2,
                (⟨none, true, v, s⟩ : StatechartCellCycleModelSerializable D),
                r, rfl, ?_, hlen, ?_, ?_⟩
              · simp only [load_construct_data, Archive.loadInt, hl,
                  StatechartCellCycleModelSerializable.construct, if_true]
              · intro h0
                show (v.length : Int) = n
                omega
              · intro hneg
                show v = []
                apply List.eq_nil_of_length_eq_zero
                omega
  · intro s n ar2 hneg
    have h0 : n.toNat = 0 := by omega
    simp only [restored, load_construct_data, Archive.loadInt, h0, loadVariables,
      StatechartCellCycleModelSerializable.construct, if_true, Except.map]

/-- The read loop, when it succeeds, has consumed exactly the doubles at the front of the
archive, one per iteration, and pushed them in the order it read them. -/
theorem loadVariables_ok_shape {D : Type} (k : Nat) (ar : Archive D) (acc v : List D)
    (r : Archive D) (h : loadVariables k ar acc = Except.ok (v, r)) :
    ∃ ds : List D, ds.length = k ∧ ar = ds.map ArchiveItem.double ++ r ∧ v = acc ++ ds := by
  induction k generalizing ar acc with
  | zero =>
    simp only [loadVariables, Except.ok.injEq, Prod.mk.injEq] at h
    exact ⟨[], rfl, by simp [h.2], by simp [h.1]⟩
  | succ j ih =>
    cases ar with
    | nil => simp [loadVariables, Archive.loadDouble] at h
    | cons item rest =>
      cases item with
      | int i => simp [loadVariables, Archive.loadDouble] at h
      | double x =>
        simp only [loadVariables, Archive.loadDouble] at h
        obtain ⟨ds, hlen, har, hv⟩ := ih rest (acc ++ [x]) h
        refine ⟨x :: ds, by simp [hlen], by simp [har], ?_⟩
        rw [hv, List.append_assoc]
        rfl

/-- C5. Phase 1 of restore. On a record made of a state id, a count and that many
doubles, `load_construct_data` succeeds and returns the model constructed with the
loading-from-archive flag `true` in which `TempStateStorage` is the state id and
`TempVariableStorage` is the sequence of the record, every value and in the order of the
record, and nothing else is assigned. Every successful load is of this kind: the archive
began with such a record and the model holds exactly its pair. That model has the flag set
and no statechart: `load_construct_data` constructs none, attaches none and calls no
statechart setter. -/
theorem load_is_phase_one {D : Type} (fresh : CellStatechart D) :
    (∀ (s n : Int) (v : List D) (rest : Archive D), v.length = n.toNat →
      load_construct_data fresh
          (ArchiveItem.int s :: ArchiveItem.int n :: (v.map ArchiveItem.double ++ rest))
        = Except.ok ({ StatechartCellCycleModelSerializable.construct fresh true with
                       TempStateStorage := s, TempVariableStorage := v }, rest)) ∧
    (∀ (ar r : Archive D) (t : StatechartCellCycleModelSerializable D),
      load_construct_data fresh ar = Except.ok (t, r) →
      ∃ (s n : Int) (v : List D),
        ar = ArchiveItem.int s :: ArchiveItem.int n :: (v.map ArchiveItem.double ++ r) ∧
        v.length = n.toNat ∧
        t = { StatechartCellCycleModelSerializable.construct fresh true with
              TempStateStorage := s, TempVariableStorage := v }) ∧
    (∀ (s : Int) (v : List D),
      ({ StatechartCellCycleModelSerializable.construct fresh true with
         TempStateStorage := s, TempVariableStorage := v } :
        StatechartCellCycleModelSerializable D)
        = { pStatechart := none, mLoadingFromArchive := true,
            TempVariableStorage := v, TempStateStorage := s }) := by
  refine ⟨?_, ?_, ?_⟩
  · intro s n v rest hn
    exact load_construct_data_record fresh s n v rest hn
  · intro ar r t h
    cases ar with
    | nil => simp [load_construct_data, Archive.loadInt] at h
    | cons i1 ar1 =>
      cases i1 with
      | double x => simp [load_construct_data, Archive.loadInt] at h
      | int s =>
        cases ar1 with
        | nil => simp [load_construct_data, Archive.loadInt] at h
        | cons i2 ar2 =>
          cases i2 with
          | double x => simp [load_construct_data, Archive.loadInt] at h
          | int n =>
            cases hl : loadVariables n.toNat ar2 [] with
            | error e => simp [load_construct_data, Archive.loadInt, hl] at h
            | ok p =>
              obtain ⟨v, r1⟩ := p
              obtain ⟨ds, hlen, har, hv⟩ := loadVariables_ok_shape _ _ _ _ _ hl
              simp only [load_construct_data, Archive.loadInt, hl, Except.ok.injEq,
                Prod.mk.injEq] at h
              obtain ⟨ht, hr⟩ := h
              subst ht
              subst hr
              simp only [List.nil_append] at hv
              subst hv
              exact ⟨s, n, v, by rw [har], hlen, rfl⟩
  · intro s v
    rfl

/-- C5, at the record of state `7` with the three variables `10.0, 20.0, 30.0`. -/
theorem load_is_phase_one_witness :
    load_construct_data twoVariableStatechart
        [ArchiveItem.int 7, ArchiveItem.int 3, ArchiveItem.double (Binary64.ofInt 10),
          ArchiveItem.double (Binary64.ofInt 20), ArchiveItem.double (Binary64.ofInt 30)]
      = Except.ok (⟨none, true,
          [Binary64.ofInt 10, Binary64.ofInt 20, Binary64.ofInt 30], 7⟩, []) :=
  (load_is_phase_one twoVariableStatechart).1 7 3
    [Binary64.ofInt 10, Binary64.ofInt 20, Binary64.ofInt 30] [] rfl

/-- What phase 2 does with a snapshot whose number of variables is not the number the
automaton has. -/
theorem Decode_length_mismatch {D : Type} (recognises : Int → Bool) (s : Int) (v : List D)
    (automaton : CellStatechart D) (h : v.length ≠ automaton.GetVariables.length) :
    Decode recognises (s, v) automaton = Except.error RestoreError.DecodeMismatch := by
  unfold Decode CellStatechart.SetStateId
  cases recognises s with
  | false => rfl
  | true =>
    simp only [if_true, Except.bind, CellStatechart.SetVariables, h, if_false]

/-- What phase 2 does with a snapshot the automaton accepts. -/
theorem Decode_accepts {D : Type} (recognises : Int → Bool) (s : Int) (v : List D)
    (automaton : CellStatechart D) (hs : recognises s = true)
    (h : v.length = automaton.GetVariables.length) :
    Decode recognises (s, v) automaton
      = Except.ok { GetState := s, GetVariables := v } := by
  simp only [Decode, CellStatechart.SetStateId, hs, if_true, Except.bind,
    CellStatechart.SetVariables, h]

/-- C6. Version-skew records are refused at load time: a record that declares
`variableCount = 3` and holds three doubles, loaded for a statechart that expects two
variables, fails with the decode mismatch. Phase 1 has stored exactly the three values of
the record, not a truncated, padded or default sequence, and phase 2 stores nothing in the
statechart. A record with two variables and a state id the statechart recognises is
accepted with exactly its two values, so it is the count that is refused. -/
theorem version_skew_refused {D : Type} (recognises : Int → Bool) (fresh : CellStatechart D)
    (s : Int) (x1 x2 x3 : D) (rest : Archive D) (hexp : fresh.GetVariables.length = 2) :
    restored (load_construct_data fresh
        (ArchiveItem.int s :: ArchiveItem.int 3 :: ArchiveItem.double x1 ::
          ArchiveItem.double x2 :: ArchiveItem.double x3 :: rest))
      = Except.ok (s, [x1, x2, x3], rest) ∧
    restoreModel recognises fresh
        (ArchiveItem.int s :: ArchiveItem.int 3 :: ArchiveItem.double x1 ::
          ArchiveItem.double x2 :: ArchiveItem.double x3 :: rest)
      = Except.error RestoreError.DecodeMismatch ∧
    (∀ y1 y2 : D, recognises s = true →
      restoreModel recognises fresh
          (ArchiveItem.int s :: ArchiveItem.int 2 :: ArchiveItem.double y1 ::
            ArchiveItem.double y2 :: rest)
        = Except.ok ({ pStatechart := some { GetState := s, GetVariables := [y1, y2] },
                       mLoadingFromArchive := false,
                       TempVariableStorage := [],
                       TempStateStorage := 0 }, rest)) := by
  have h3 := load_construct_data_record fresh s 3 [x1, x2, x3] rest rfl
  simp only [List.map_cons, List.map_nil, List.cons_append, List.nil_append] at h3
  refine ⟨?_, ?_, ?_⟩
  · rw [h3]
    rfl
  · have hne : [x1, x2, x3].length ≠ fresh.GetVariables.length := by
      rw [hexp]
      simp
    simp only [restoreModel, h3, StatechartCellCycleModelSerializable.SetCell, if_true,
      Decode_length_mismatch recognises s [x1, x2, x3] fresh hne, Except.bind]
  · intro y1 y2 hs
    have h2 := load_construct_data_record fresh s 2 [y1, y2] rest rfl
    simp only [List.map_cons, List.map_nil, List.cons_append, List.nil_append] at h2
    have heq : [y1, y2].length = fresh.GetVariables.length := by
      rw [hexp]
      rfl
    simp only [restoreModel, h2, StatechartCellCycleModelSerializable.SetCell, if_true,
      Decode_accepts recognises s [y1, y2] fresh hs heq, Except.bind]

/-- C6, at the record of state `7` with the three variables `10.0, 20.0, 30.0` and the
statechart with two variables. -/
theorem version_skew_refused_witness :
    twoVariableStatechart.GetVariables.length = 2 ∧
      restoreModel (fun _ => true) twoVariableStatechart
          [ArchiveItem.int 7, ArchiveItem.int 3, ArchiveItem.double (Binary64.ofInt 10),
            ArchiveItem.double (Binary64.ofInt 20), ArchiveItem.double (Binary64.ofInt 30)]
        = Except.error RestoreError.DecodeMismatch :=
  ⟨rfl, (version_skew_refused (fun _ => true) twoVariableStatechart 7 (Binary64.ofInt 10)
    (Binary64.ofInt 20) (Binary64.ofInt 30) [] rfl).2.1⟩

/-- C8. Encoding is read-only: `save_construct_data` either stops at the empty statechart
pointer before anything is written, or returns the model exactly as it was (statechart,
`TempStateStorage`, `TempVariableStorage` and `mLoadingFromArchive` included) and an
archive that is the old one with items appended. -/
theorem save_is_read_only {D : Type} (ar : Archive D)
    (t : StatechartCellCycleModelSerializable D) :
    (t.pStatechart = none ∧ save_construct_data ar t = Except.error Error.null_pointer) ∨
      ∃ w, save_construct_data ar t = Except.ok (ar ++ w, t) := by
  cases h : t.pStatechart with
  | none => exact Or.inl ⟨rfl, save_construct_data_none ar t h⟩
  | some sc => exact Or.inr ⟨_, save_construct_data_some ar t sc h⟩

/-! ## Theorems: the `serialize` members -/

/-- C7. The shared random stream is archived with the model: `serialize` of
`StatechartCellCycleModelSerializable`, and likewise of
`ElegansAdultDistanceBasedCellCycleModel`, hands the archive the base cell-cycle-model
object and then, in the same call, the serialization wrapper of the `RandomNumberGenerator`
singleton, in that order, with a saving archive and with a loading archive alike. On an
archive that records its operands the log grows by exactly these two entries; on any
archive the wrapper is handed over to the archive that the base object left, and is not
reached when archiving the base object throws. -/
theorem serialize_base_then_random_stream :
    (∀ (kind : ArchiveKind) (log : List (ArchiveKind × Archived)),
      StatechartCellCycleModelSerializable.serialize (recordingAmp kind) log
        = Except.ok (log ++ [(kind, Archived.base_object_AbstractCellCycleModel),
            (kind, Archived.p_wrapper)]) ∧
      ElegansAdultDistanceBasedCellCycleModel.serialize (recordingAmp kind) log
        = Except.ok (log ++ [(kind, Archived.base_object_AbstractSimpleCellCycleModel),
            (kind, Archived.p_wrapper)])) ∧
    (∀ (W E : Type) (amp : W → Archived → Except E W) (archive archive1 : W),
      (amp archive Archived.base_object_AbstractCellCycleModel = Except.ok archive1 →
        StatechartCellCycleModelSerializable.serialize amp archive
          = amp archive1 Archived.p_wrapper) ∧
      (amp archive Archived.base_object_AbstractSimpleCellCycleModel = Except.ok archive1 →
        ElegansAdultDistanceBasedCellCycleModel.serialize amp archive
          = amp archive1 Archived.p_wrapper)) ∧
    (∀ (W E : Type) (amp : W → Archived → Except E W) (archive : W) (e : E),
      (amp archive Archived.base_object_AbstractCellCycleModel = Except.error e →
        StatechartCellCycleModelSerializable.serialize amp archive = Except.error e) ∧
      (amp archive Archived.base_object_AbstractSimpleCellCycleModel = Except.error e →
        ElegansAdultDistanceBasedCellCycleModel.serialize amp archive = Except.error e)) := by
  refine ⟨?_, ?_, ?_⟩
  · intro kind log
    constructor
    · simp only [StatechartCellCycleModelSerializable.serialize, recordingAmp, Except.bind,
        List.append_assoc, List.singleton_append]
    · simp only [ElegansAdultDistanceBasedCellCycleModel.serialize, recordingAmp, Except.bind,
        List.append_assoc, List.singleton_append]
  · intro W E amp archive archive1
    constructor
    · intro h
      simp only [StatechartCellCycleModelSerializable.serialize, h, Except.bind]
    · intro h
      simp only [ElegansAdultDistanceBasedCellCycleModel.serialize, h, Except.bind]
  · intro W E amp archive e
    constructor
    · intro h
      simp only [StatechartCellCycleModelSerializable.serialize, h, Except.bind]
    · intro h
      simp only [ElegansAdultDistanceBasedCellCycleModel.serialize, h, Except.bind]

/-! ## Theorems: the mass-corrected repulsion force -/

/-- The loop body never ends in an exception. -/
theorem pairStep_not_exception {D : Type} {DIM : Nat} (A : DoubleArith D)
    (env : ForceEnvironment D DIM) (pair : Nat × Nat) (pop : AbstractCellPopulation D DIM) :
    (pairStep A env pair pop).isException = false := by
  unfold pairStep
  simp only
  split
  · split <;> rfl
  · rfl

/-- The loop never ends in an exception. -/
theorem forEachNodePair_not_exception {D : Type} {DIM : Nat} (A : DoubleArith D)
    (env : ForceEnvironment D DIM) (pairs : List (Nat × Nat))
    (pop : AbstractCellPopulation D DIM) :
    (forEachNodePair A env pairs pop).isException = false := by
  induction pairs generalizing pop with
  | nil => rfl
  | cons pair rest ih =>
    have h := pairStep_not_exception A env pair pop
    unfold forEachNodePair
    cases hp : pairStep A env pair pop with
    | returned pop1 => exact ih pop1
    | exception m pop1 => rw [hp] at h; exact absurd h (by simp [Outcome.isException])
    | assertion_failed pop1 => rfl

/-- The loop over a list of pairs continues, after a first part that returned, from the
state that part reached. -/
theorem forEachNodePair_append {D : Type} {DIM : Nat} (A : DoubleArith D)
    (env : ForceEnvironment D DIM) (pre rest : List (Nat × Nat))
    (pop s : AbstractCellPopulation D DIM)
    (h : forEachNodePair A env pre pop = Outcome.returned s) :
    forEachNodePair A env (pre ++ rest) pop = forEachNodePair A env rest s := by
  induction pre generalizing pop with
  | nil =>
    simp only [forEachNodePair, Outcome.returned.injEq] at h
    rw [List.nil_append, h]
  | cons pair more ih =>
    rw [List.cons_append]
    cases hp : pairStep A env pair pop with
    | returned pop1 =>
      have h1 : forEachNodePair A env (pair :: more) pop
          = forEachNodePair A env more pop1 := by
        simp only [forEachNodePair, hp]
      have h2 : forEachNodePair A env (pair :: (more ++ rest)) pop
          = forEachNodePair A env (more ++ rest) pop1 := by
        simp only [forEachNodePair, hp]
      rw [h2]
      exact ih pop1 (h1 ▸ h)
    | exception m pop1 =>
      simp only [forEachNodePair, hp] at h
      cases h
    | assertion_failed pop1 =>
      simp only [forEachNodePair, hp] at h
      cases h

/-- The loop body on a pair of overlapping nodes whose force has no NaN component. -/
theorem pairStep_overlap {D : Type} {DIM : Nat} (A : DoubleArith D)
    (env : ForceEnvironment D DIM) (a b : Nat) (s : AbstractCellPopulation D DIM)
    (hsep : A.lt (env.norm_2 (env.GetVectorFromAtoB (s.node a).rGetLocation
        (s.node b).rGetLocation)) (A.add (s.node a).GetRadius (s.node b).GetRadius) = true)
    (hnan : ∀ j, A.isnan (env.CalculateForceBetweenNodes (s.node a).GetIndex
        (s.node b).GetIndex s j) = false) :
    pairStep A env (a, b) s = Outcome.returned
      (AddAppliedForceContribution
        (AddAppliedForceContribution
          { s with calculateForceCalls := s.calculateForceCalls ++
              [((s.node a).GetIndex, (s.node b).GetIndex)] }
          a (fun j => A.div (env.CalculateForceBetweenNodes (s.node a).GetIndex
              (s.node b).GetIndex s j) (A.div (s.node a).GetRadius (A.ofInt 10))))
        b (fun j => A.div (A.mul (A.ofInt (-1)) (env.CalculateForceBetweenNodes
              (s.node a).GetIndex (s.node b).GetIndex s j))
            (A.div (s.node b).GetRadius (A.ofInt 10)))) := by
  have hany : (List.finRange DIM).any (fun j => A.isnan (env.CalculateForceBetweenNodes
      (s.node a).GetIndex (s.node b).GetIndex s j)) = false := by
    rw [List.any_eq_false]
    intro j _
    simp [hnan j]
  unfold pairStep
  simp only [hsep, hany, if_true, Bool.false_eq_true, if_false]

/-- The loop body on a pair of overlapping nodes whose force has a NaN component: the
`assert` fails after the force has been calculated and before anything is added. -/
theorem pairStep_nan {D : Type} {DIM : Nat} (A : DoubleArith D)
    (env : ForceEnvironment D DIM) (a b : Nat) (s : AbstractCellPopulation D DIM)
    (hsep : A.lt (env.norm_2 (env.GetVectorFromAtoB (s.node a).rGetLocation
        (s.node b).rGetLocation)) (A.add (s.node a).GetRadius (s.node b).GetRadius) = true)
    (hnan : ∃ j, A.isnan (env.CalculateForceBetweenNodes (s.node a).GetIndex
        (s.node b).GetIndex s j) = true) :
    pairStep A env (a, b) s = Outcome.assertion_failed
      { s with calculateForceCalls := s.calculateForceCalls ++
          [((s.node a).GetIndex, (s.node b).GetIndex)] } := by
  have hany : (List.finRange DIM).any (fun j => A.isnan (env.CalculateForceBetweenNodes
      (s.node a).GetIndex (s.node b).GetIndex s j)) = true := by
    rw [List.any_eq_true]
    obtain ⟨j, hj⟩ := hnan
    exact ⟨j, List.mem_finRange j, hj⟩
  unfold pairStep
  simp only [hsep, hany, if_true]

/-- The loop body on a pair of nodes that do not overlap: nothing changes. -/
theorem pairStep_apart {D : Type} {DIM : Nat} (A : DoubleArith D)
    (env : ForceEnvironment D DIM) (a b : Nat) (s : AbstractCellPopulation D DIM)
    (hsep : A.lt (env.norm_2 (env.GetVectorFromAtoB (s.node a).rGetLocation
        (s.node b).rGetLocation)) (A.add (s.node a).GetRadius (s.node b).GetRadius) = false) :
    pairStep A env (a, b) s = Outcome.returned s := by
  unfold pairStep
  simp only [hsep, Bool.false_eq_true, if_false]

/-- On the two nodes held by a population that is not node based, the call raises and
neither node has received anything. -/
theorem exception_on_other_population :
    (AddForceContribution binary64Arith (lineEnvironment (Binary64.ofInt 3))
        twoNodesNotNodeBased).isException = true ∧
      receivedBy (AddForceContribution binary64Arith (lineEnvironment (Binary64.ofInt 3))
        twoNodesNotNodeBased) 0 = [] ∧
      receivedBy (AddForceContribution binary64Arith (lineEnvironment (Binary64.ofInt 3))
        twoNodesNotNodeBased) 1 = [] := by
  decide

/-- C9. `AddForceContribution` raises an exception exactly when the cell population is
not a `NodeBasedCellPopulation`; it then raises before the loop, with the population
untouched, so that no node has received an applied-force contribution. -/
theorem exception_iff_not_node_based {D : Type} {DIM : Nat} (A : DoubleArith D)
    (env : ForceEnvironment D DIM) (pop : AbstractCellPopulation D DIM) :
    ((AddForceContribution A env pop).isException = true ↔
        pop.isNodeBasedCellPopulation = false) ∧
      (pop.isNodeBasedCellPopulation = false →
        AddForceContribution A env pop = Outcome.exception
          "RepulsionForceMassCorrected is to be used with a NodeBasedCellPopulation only"
          pop) ∧
      (∀ m s, AddForceContribution A env pop = Outcome.exception m s →
        ∀ p, (s.node p).appliedForceContributions
          = (pop.node p).appliedForceContributions) := by
  cases hb : pop.isNodeBasedCellPopulation with
  | false =>
    have h : AddForceContribution A env pop = Outcome.exception
        "RepulsionForceMassCorrected is to be used with a NodeBasedCellPopulation only"
        pop := by
      simp only [AddForceContribution, hb, if_true]
    refine ⟨?_, fun _ => h, ?_⟩
    · rw [h]; simp [Outcome.isException]
    · intro m s hs p
      rw [h] at hs
      simp only [Outcome.exception.injEq] at hs
      rw [hs.2]
  | true =>
    have h : AddForceContribution A env pop
        = forEachNodePair A env pop.rGetNodePairs pop := by
      simp only [AddForceContribution, hb, Bool.true_eq_false, if_false]
    have hne := forEachNodePair_not_exception A env pop.rGetNodePairs pop
    refine ⟨?_, ?_, ?_⟩
    · rw [h, hne]; simp
    · intro hf; cases hf
    · intro m s hs p
      rw [h] at hs
      rw [hs] at hne
      simp [Outcome.isException] at hne

/-- C10, as stated, fails in two ways on the two nodes of `twoNodes`, which are `1.0`
apart with radii `1.0` and `9.0`, in binary64 arithmetic. When the force between them has
a NaN component the `assert` fails and neither node receives a contribution. When the force
is `3.0`, node `0` receives `3.0/(1.0/10) = 30.0` and node `1` receives
`-3.0/(9.0/10) = -3752999689475413 * 2^(-50)`, and radius times contribution, summed over
the two nodes, is not zero: it is `2^(-48)` when computed in binary64 and
`3 * 2^(-50)` exactly (`3 * 2^2098` in units of `2^(-2148)`). -/
theorem mass_corrected_counterexample :
    ((AddForceContribution binary64Arith (lineEnvironment Binary64.nan)
        twoNodes).isAssertionFailed = true ∧
      receivedBy (AddForceContribution binary64Arith (lineEnvironment Binary64.nan)
        twoNodes) 0 = [] ∧
      receivedBy (AddForceContribution binary64Arith (lineEnvironment Binary64.nan)
        twoNodes) 1 = []) ∧
    ((AddForceContribution binary64Arith (lineEnvironment (Binary64.ofInt 3))
        twoNodes).isReturned = true ∧
      receivedBy (AddForceContribution binary64Arith (lineEnvironment (Binary64.ofInt 3))
        twoNodes) 0 = [Binary64.ofInt 30] ∧
      receivedBy (AddForceContribution binary64Arith (lineEnvironment (Binary64.ofInt 3))
        twoNodes) 1 = [Binary64.ofSignificand true 3752999689475413 (-50)] ∧
      Binary64.add
          (Binary64.mul (Binary64.ofInt 1) (Binary64.ofInt 30))
          (Binary64.mul (Binary64.ofInt 9)
            (Binary64.ofSignificand true 3752999689475413 (-50)))
        = Binary64.ofSignificand false 1 (-48) ∧
      Binary64.ofSignificand false 1 (-48) ≠ Binary64.ofInt 0 ∧
      (Binary64.ofInt 1).units * (Binary64.ofInt 30).units +
          (Binary64.ofInt 9).units *
            (Binary64.ofSignificand true 3752999689475413 (-50)).units
        = ((3 * 2 ^ 2098 : Nat) : Int) ∧
      ((3 * 2 ^ 2098 : Nat) : Int) ≠ 0) := by
  refine ⟨⟨?_, ?_, ?_⟩, ?_, ?_, ?_, ?_, ?_, ?_, ?_⟩ <;> decide

/-- C10, amended. Mass-corrected force values: when the loop of `AddForceContribution`
reaches a node pair `(a, b)` whose separation is strictly less than
`radius(a) + radius(b)`, then, writing `F` for `CalculateForceBetweenNodes(a, b)`: if no
component of `F` is a NaN, it hands `F[j] / (radius(a)/10)` to node `a` and
`(-1.0 * F[j]) / (radius(b)/10)` to node `b`, component by component, and goes on with
the pairs that follow; if a component of `F` is a NaN, the `assert` fails and nothing is
added for this pair or for a later one. This holds in every arithmetic. In arithmetic
without rounding, for non-zero radii, `radius(a)` times the contribution of `a` plus
`radius(b)` times the contribution of `b` is zero. -/
theorem mass_corrected_contributions {D : Type} {DIM : Nat} (A : DoubleArith D)
    (env : ForceEnvironment D DIM) (pop s : AbstractCellPopulation D DIM)
    (pre post : List (Nat × Nat)) (a b : Nat)
    (hbased : pop.isNodeBasedCellPopulation = true)
    (hpairs : pop.rGetNodePairs = pre ++ (a, b) :: post)
    (hpre : forEachNodePair A env pre pop = Outcome.returned s)
    (hsep : A.lt (env.norm_2 (env.GetVectorFromAtoB (s.node a).rGetLocation
        (s.node b).rGetLocation)) (A.add (s.node a).GetRadius (s.node b).GetRadius) = true) :
    ((∀ j, A.isnan (env.CalculateForceBetweenNodes (s.node a).GetIndex
          (s.node b).GetIndex s j) = false) →
      AddForceContribution A env pop = forEachNodePair A env post
        (AddAppliedForceContribution
          (AddAppliedForceContribution
            { s with calculateForceCalls := s.calculateForceCalls ++
                [((s.node a).GetIndex, (s.node b).GetIndex)] }
            a (fun j => A.div (env.CalculateForceBetweenNodes (s.node a).GetIndex
                (s.node b).GetIndex s j) (A.div (s.node a).GetRadius (A.ofInt 10))))
          b (fun j => A.div (A.mul (A.ofInt (-1)) (env.CalculateForceBetweenNodes
                (s.node a).GetIndex (s.node b).GetIndex s j))
              (A.div (s.node b).GetRadius (A.ofInt 10))))) ∧
    ((∃ j, A.isnan (env.CalculateForceBetweenNodes (s.node a).GetIndex
          (s.node b).GetIndex s j) = true) →
      AddForceContribution A env pop = Outcome.assertion_failed
        { s with calculateForceCalls := s.calculateForceCalls ++
            [((s.node a).GetIndex, (s.node b).GetIndex)] }) ∧
    ∀ (F ra rb : ℚ), ra ≠ 0 → rb ≠ 0 →
      ra * exactArith.div F (exactArith.div ra (exactArith.ofInt 10)) +
        rb * exactArith.div (exactArith.mul (exactArith.ofInt (-1)) F)
          (exactArith.div rb (exactArith.ofInt 10)) = 0 := by
  have h1 : AddForceContribution A env pop
      = forEachNodePair A env ((a, b) :: post) s := by
    simp only [AddForceContribution, hbased, Bool.true_eq_false, if_false, hpairs]
    exact forEachNodePair_append A env pre ((a, b) :: post) pop s hpre
  refine ⟨?_, ?_, ?_⟩
  · intro hnan
    rw [h1]
    simp only [forEachNodePair, pairStep_overlap A env a b s hsep hnan]
  · intro hnan
    rw [h1]
    simp only [forEachNodePair, pairStep_nan A env a b s hsep hnan]
  · intro F ra rb hra hrb
    simp only [exactArith]
    push_cast
    field_simp
    ring

/-- C10, amended, at the two nodes of `twoNodes` with the force `3.0`, in binary64
arithmetic. -/
theorem mass_corrected_contributions_witness :
    AddForceContribution binary64Arith (lineEnvironment (Binary64.ofInt 3)) twoNodes
      = Outcome.returned
        (AddAppliedForceContribution
          (AddAppliedForceContribution
            { twoNodes with calculateForceCalls := [(0, 1)] }
            0 (fun _ => Binary64.div (Binary64.ofInt 3)
              (Binary64.div (Binary64.ofInt 1) (Binary64.ofInt 10))))
          1 (fun _ => Binary64.div (Binary64.mul (Binary64.ofInt (-1)) (Binary64.ofInt 3))
              (Binary64.div (Binary64.ofInt 9) (Binary64.ofInt 10)))) :=
  (mass_corrected_contributions binary64Arith (lineEnvironment (Binary64.ofInt 3))
    twoNodes twoNodes [] [] 0 1 rfl rfl rfl (by decide)).1 (fun _ => rfl)

/-- The loop over a list of pairs in two parts: the second part runs from the state the
first part returned, and does not run when the first part did not return. -/
theorem forEachNodePair_append_outcome {D : Type} {DIM : Nat} (A : DoubleArith D)
    (env : ForceEnvironment D DIM) (pre rest : List (Nat × Nat))
    (pop : AbstractCellPopulation D DIM) :
    forEachNodePair A env (pre ++ rest) pop =
      match forEachNodePair A env pre pop with
      | Outcome.returned s => forEachNodePair A env rest s
      | Outcome.exception m s => Outcome.exception m s
      | Outcome.assertion_failed s => Outcome.assertion_failed s := by
  induction pre generalizing pop with
  | nil => simp only [List.nil_append, forEachNodePair]
  | cons pair more ih =>
    rw [List.cons_append]
    cases hp : pairStep A env pair pop with
    | returned pop1 =>
      have h1 : forEachNodePair A env (pair :: more) pop
          = forEachNodePair A env more pop1 := by
        simp only [forEachNodePair, hp]
      have h2 : forEachNodePair A env (pair :: (more ++ rest)) pop
          = forEachNodePair A env (more ++ rest) pop1 := by
        simp only [forEachNodePair, hp]
      rw [h1, h2]
      exact ih pop1
    | exception m pop1 => simp only [forEachNodePair, hp]
    | assertion_failed pop1 => simp only [forEachNodePair, hp]

/-- Handing a contribution to a node changes no location, radius or index. -/
theorem AddAppliedForceContribution_geometry {D : Type} {DIM : Nat}
    (pop : AbstractCellPopulation D DIM) (p : Nat) (f : c_vector D DIM) (q : Nat) :
    ((AddAppliedForceContribution pop p f).node q).rGetLocation = (pop.node q).rGetLocation ∧
      ((AddAppliedForceContribution pop p f).node q).GetRadius = (pop.node q).GetRadius ∧
      ((AddAppliedForceContribution pop p f).node q).GetIndex = (pop.node q).GetIndex := by
  unfold AddAppliedForceContribution
  by_cases h : q = p
  · subst h
    simp
  · simp [h]

/-- The loop body changes no location, radius or index, however it ends. -/
theorem pairStep_geometry {D : Type} {DIM : Nat} (A : DoubleArith D)
    (env : ForceEnvironment D DIM) (pair : Nat × Nat) (pop : AbstractCellPopulation D DIM)
    (q : Nat) :
    ((pairStep A env pair pop).state.node q).rGetLocation = (pop.node q).rGetLocation ∧
      ((pairStep A env pair pop).state.node q).GetRadius = (pop.node q).GetRadius ∧
      ((pairStep A env pair pop).state.node q).GetIndex = (pop.node q).GetIndex := by
  unfold pairStep
  simp only
  split
  · split
    · exact ⟨rfl, rfl, rfl⟩
    · simp only [Outcome.state]
      refine ⟨?_, ?_, ?_⟩
      · rw [(AddAppliedForceContribution_geometry _ _ _ q).1,
          (AddAppliedForceContribution_geometry _ _ _ q).1]
      · rw [(AddAppliedForceContribution_geometry _ _ _ q).2.1,
          (AddAppliedForceContribution_geometry _ _ _ q).2.1]
      · rw [(AddAppliedForceContribution_geometry _ _ _ q).2.2,
          (AddAppliedForceContribution_geometry _ _ _ q).2.2]
  · exact ⟨rfl, rfl, rfl⟩

/-- The loop changes no location, radius or index, however it ends. -/
theorem forEachNodePair_geometry {D : Type} {DIM : Nat} (A : DoubleArith D)
    (env : ForceEnvironment D DIM) (pairs : List (Nat × Nat))
    (pop : AbstractCellPopulation D DIM) (q : Nat) :
    ((forEachNodePair A env pairs pop).state.node q).rGetLocation
        = (pop.node q).rGetLocation ∧
      ((forEachNodePair A env pairs pop).state.node q).GetRadius = (pop.node q).GetRadius ∧
      ((forEachNodePair A env pairs pop).state.node q).GetIndex = (pop.node q).GetIndex := by
  induction pairs generalizing pop with
  | nil => exact ⟨rfl, rfl, rfl⟩
  | cons pair rest ih =>
    have hstep := pairStep_geometry A env pair pop q
    cases hp : pairStep A env pair pop with
    | returned pop1 =>
      have h1 : forEachNodePair A env (pair :: rest) pop
          = forEachNodePair A env rest pop1 := by
        simp only [forEachNodePair, hp]
      rw [hp] at hstep
      simp only [Outcome.state] at hstep
      rw [h1, (ih pop1).1, (ih pop1).2.1, (ih pop1).2.2]
      exact hstep
    | exception m pop1 =>
      have h1 : forEachNodePair A env (pair :: rest) pop = Outcome.exception m pop1 := by
        simp only [forEachNodePair, hp]
      rw [hp] at hstep
      rw [h1]
      exact hstep
    | assertion_failed pop1 =>
      have h1 : forEachNodePair A env (pair :: rest) pop
          = Outcome.assertion_failed pop1 := by
        simp only [forEachNodePair, hp]
      rw [hp] at hstep
      rw [h1]
      exact hstep

/-- In binary64, `y <= x` excludes `x < y`. -/
theorem Binary64.not_lt_of_le (x y : Binary64) (h : Binary64.le y x = true) :
    Binary64.lt x y = false := by
  cases x with
  | finite a =>
    cases y with
    | finite b =>
      simp only [Binary64.le, decide_eq_true_eq] at h
      simp only [Binary64.lt, decide_eq_false_iff_not]
      omega
    | infinity t =>
      simp only [Binary64.le] at h
      simp only [Binary64.lt, h]
      cases t <;> simp_all
    | nan => simp [Binary64.le] at h
  | infinity s =>
    cases y with
    | finite b =>
      simp only [Binary64.le] at h
      cases s <;> simp_all [Binary64.lt]
    | infinity t =>
      simp only [Binary64.le] at h
      cases s <;> cases t <;> simp_all [Binary64.lt]
    | nan => simp [Binary64.le] at h
  | nan => cases y <;> simp [Binary64.le] at h

/-- In binary64, a value that is not a NaN satisfies `x <= x`. -/
theorem Binary64.le_self (x : Binary64) (h : Binary64.isnan x = false) :
    Binary64.le x x = true := by
  cases x with
  | finite a => simp [Binary64.le]
  | infinity s => cases s <;> simp [Binary64.le]
  | nan => simp [Binary64.isnan] at h

/-- C11. Non-overlapping pairs are untouched: when the separation of a node pair `(a, b)`
of the node-pair list is not less than `radius(a) + radius(b)`, `AddForceContribution`
runs exactly as it does on the list without that pair, and the loop body at that pair
leaves the whole population as it found it: no node has a new contribution and the log of
the calls of `CalculateForceBetweenNodes` has no new entry. In binary64 the separation is
not less than the sum whenever it is greater than or equal to it, and a sum that is not a
NaN is less than or equal to itself, which is the case of exact contact. -/
theorem pairs_apart_untouched {D : Type} {DIM : Nat} (A : DoubleArith D)
    (env : ForceEnvironment D DIM) (pop : AbstractCellPopulation D DIM)
    (pre post : List (Nat × Nat)) (a b : Nat)
    (hbased : pop.isNodeBasedCellPopulation = true)
    (hpairs : pop.rGetNodePairs = pre ++ (a, b) :: post)
    (hsep : A.lt (env.norm_2 (env.GetVectorFromAtoB (pop.node a).rGetLocation
        (pop.node b).rGetLocation))
      (A.add (pop.node a).GetRadius (pop.node b).GetRadius) = false) :
    AddForceContribution A env pop = forEachNodePair A env (pre ++ post) pop ∧
      (∀ s, forEachNodePair A env pre pop = Outcome.returned s →
        pairStep A env (a, b) s = Outcome.returned s ∧
        (∀ p, (s.node p).appliedForceContributions
          = ((pairStep A env (a, b) s).state.node p).appliedForceContributions) ∧
        (pairStep A env (a, b) s).state.calculateForceCalls = s.calculateForceCalls) ∧
      (∀ x y : Binary64, Binary64.le y x = true → binary64Arith.lt x y = false) ∧
      (∀ x : Binary64, Binary64.isnan x = false → Binary64.le x x = true) := by
  have hstep : ∀ s, forEachNodePair A env pre pop = Outcome.returned s →
      pairStep A env (a, b) s = Outcome.returned s := by
    intro s hs
    have hga := forEachNodePair_geometry A env pre pop a
    have hgb := forEachNodePair_geometry A env pre pop b
    rw [hs] at hga hgb
    simp only [Outcome.state] at hga hgb
    apply pairStep_apart
    rw [hga.1, hga.2.1, hgb.1, hgb.2.1]
    exact hsep
  refine ⟨?_, ?_, ?_, ?_⟩
  · have h1 : AddForceContribution A env pop
        = forEachNodePair A env (pre ++ (a, b) :: post) pop := by
      simp only [AddForceContribution, hbased, Bool.true_eq_false, if_false, hpairs]
    rw [h1, forEachNodePair_append_outcome A env pre ((a, b) :: post) pop,
      forEachNodePair_append_outcome A env pre post pop]
    cases hs : forEachNodePair A env pre pop with
    | returned s => simp only [forEachNodePair, hstep s hs]
    | exception m s => rfl
    | assertion_failed s => rfl
  · intro s hs
    rw [hstep s hs]
    exact ⟨rfl, fun _ => rfl, rfl⟩
  · intro x y h
    exact Binary64.not_lt_of_le x y h
  · intro x h
    exact Binary64.le_self x h

/-- C11, at the two nodes of `twoNodesInContact`, whose separation `10.0` is the sum of
their radii: the call returns the population as it was. -/
theorem pairs_apart_untouched_witness :
    AddForceContribution binary64Arith (lineEnvironment (Binary64.ofInt 3)) twoNodesInContact
      = Outcome.returned twoNodesInContact :=
  (pairs_apart_untouched binary64Arith (lineEnvironment (Binary64.ofInt 3))
    twoNodesInContact [] [] 0 1 rfl rfl (by decide)).1

/-- On the two nodes in exact contact the separation is greater than or equal to the
sum of the radii, no node holds a contribution after the call and
`CalculateForceBetweenNodes` has not been called; on the overlapping nodes of `twoNodes`
it has been called once. -/
theorem contact_pair_evaluated :
    Binary64.le (Binary64.add (Binary64.ofInt 1) (Binary64.ofInt 9))
        (Binary64.abs (Binary64.add (Binary64.ofInt 10)
          (Binary64.mul (Binary64.ofInt (-1)) (Binary64.ofInt 0)))) = true ∧
      receivedBy (AddForceContribution binary64Arith (lineEnvironment (Binary64.ofInt 3))
        twoNodesInContact) 0 = [] ∧
      receivedBy (AddForceContribution binary64Arith (lineEnvironment (Binary64.ofInt 3))
        twoNodesInContact) 1 = [] ∧
      (AddForceContribution binary64Arith (lineEnvironment (Binary64.ofInt 3))
        twoNodesInContact).state.calculateForceCalls = [] ∧
      (AddForceContribution binary64Arith (lineEnvironment (Binary64.ofInt 3))
        twoNodes).state.calculateForceCalls = [(0, 1)] := by
  refine ⟨?_, ?_, ?_, ?_, ?_⟩ <;> decide

end ChasteElegans
